import Mathlib

/-!
Verification development for the answer-grading backend (backend/main.py).

The service exposes `POST /submit-answer/`.  The handler reads the uploaded
image, base64-encodes it, short-circuits when the MathPix credentials are
still the placeholder values, otherwise performs one HTTP POST to MathPix,
extracts the `text` field of the JSON reply, strips it, and — when non-empty —
compares it symbolically against the expected answer with SymPy
(`parse_latex`, `sympify`, `simplify`, difference equal to zero).

The embedding below is a shallow one: the external network call and the
SymPy library are oracles (function parameters), while every line of glue
logic of the handler is translated faithfully.  The handler model is
instrumented with the number of network calls made, the number of comparator
invocations, and the outbound MathPix request, so that the claims about
"no network I/O", "exactly one attempt" and the wire format are statable.
An exception that the Python handler would not catch is modelled as
`Except.error` in the `result` field: it escapes the handler.
-/

/-- A JSON value, restricted to the shapes the handler actually builds or
inspects: null, booleans, strings, and string-keyed objects. -/
inductive Json where
  | null : Json
  | bool : Bool → Json
  | str : String → Json
  | obj : List (String × Json) → Json
deriving Repr

/-- `dict.get key` on a JSON object: first binding of the key, if any. -/
def Json.getField (j : Json) (k : String) : Option Json :=
  match j with
  | Json.obj kvs => kvs.lookup k
  | _ => none

/-- The process-wide configuration: the two MathPix credentials as resolved
at start-up (`os.getenv` with the placeholder defaults). -/
structure Config where
  app_id : String
  app_key : String
deriving Repr

/-- The placeholder value `"YOUR_APP_ID"` used when `MATHPIX_APP_ID` is unset. -/
def DEFAULT_APP_ID : String := "YOUR_APP_ID"

/-- The placeholder value `"YOUR_APP_KEY"` used when `MATHPIX_APP_KEY` is unset. -/
def DEFAULT_APP_KEY : String := "YOUR_APP_KEY"

/-- The compiled-in default expected answer `CORRECT_ANSWER`. -/
def CORRECT_ANSWER : String := "(x + 1)**2"

/-- One incoming request: the uploaded image bytes and the optional
`correct_answer` form field (`None` when omitted; may be the empty string). -/
structure Submission where
  fileBytes : List Nat
  correct_answer : Option String
deriving Repr

/-- The body and headers of the outbound MathPix request built by the handler. -/
structure MathpixRequest where
  app_id : String
  app_key : String
  src : String
  formats : List String
  include_asciimath : Bool
deriving Repr

/-- Outcome of the single `requests.post` call: either the call raised a
transport exception, or a response arrived carrying a status code, the raw
body text, and the result of `response.json()` (which itself may raise,
e.g. on a non-JSON body). -/
inductive TransportResult where
  | exn : String → TransportResult
  | response : Nat → String → Except String Json → TransportResult
deriving Repr

/-- An HTTP response as produced by the handler: a status code and a JSON body. -/
structure HttpResponse where
  status : Nat
  body : Json
deriving Repr

/-- What one handler execution produced: the response (or an escaped,
uncaught exception), how many recognition calls were made, how many times the
symbolic comparator ran, and the outbound MathPix request if one was built. -/
structure HandlerOutput where
  result : Except String HttpResponse
  netCalls : Nat
  comparatorCalls : Nat
  outbound : Option MathpixRequest
deriving Repr

/-- The SymPy surface the handler uses, as an oracle over an abstract
expression type: `parse_latex`, `sympify`, subtraction, `simplify`
(each of the library calls may raise), and the zero expression that
`simplify(student - expected) == 0` compares against structurally. -/
structure SympyOracle (Expr : Type) where
  parse_latex : String → Except String Expr
  sympify : String → Except String Expr
  sub : Expr → Expr → Expr
  simplify : Expr → Except String Expr
  zero : Expr

/-- The base64 alphabet. -/
def b64Char (n : Nat) : Char :=
  "ABCDEFGHIJKLMNOPQRSTUVWXYZabcdefghijklmnopqrstuvwxyz0123456789+/".toList.getD n (Char.ofNat 65)

/-- Standard base64 of a byte list, as `base64.b64encode(...).decode()`. -/
def b64encode : List Nat → String
  | [] => ""
  | [a] => String.mk [b64Char (a / 4), b64Char (a % 4 * 16)] ++ "=="
  | [a, b] => String.mk [b64Char (a / 4), b64Char (a % 4 * 16 + b / 16), b64Char (b % 16 * 4)] ++ "="
  | a :: b :: c :: rest =>
      String.mk [b64Char (a / 4), b64Char (a % 4 * 16 + b / 16), b64Char (b % 16 * 4 + c / 64),
        b64Char (c % 64)] ++ b64encode rest

/-- The MathPix request the handler builds: credentials in the headers, the
base64 image under the fixed `data:image/png;base64,` media-type label,
result format `["text"]`, and `include_asciimath` disabled. -/
def mathpixData (cfg : Config) (req : Submission) : MathpixRequest :=
  { app_id := cfg.app_id
    app_key := cfg.app_key
    src := "data:image/png;base64," ++ b64encode req.fileBytes
    formats := ["text"]
    include_asciimath := false }

/-- Python `str.strip()`: drop whitespace from both ends of the string. -/
def pyStrip (s : String) : String :=
  String.mk (((s.toList.dropWhile Char.isWhitespace).reverse.dropWhile
    Char.isWhitespace).reverse)

/-- `response.json().get("text", "").strip()`: propagates a `response.json()`
failure, raises on a non-object body or a non-string `text` value, returns
the stripped string otherwise (the empty string when `text` is absent). -/
def jsonGetTextStrip : Except String Json → Except String String
  | Except.error e => Except.error e
  | Except.ok (Json.obj kvs) =>
      match kvs.lookup "text" with
      | none => Except.ok ""
      | some (Json.str s) => Except.ok (pyStrip s)
      | some _ => Except.error "AttributeError: object has no attribute strip"
  | Except.ok _ => Except.error "AttributeError: object has no attribute get"

/-- `correct_answer if correct_answer else CORRECT_ANSWER`: Python truthiness,
so both `None` and the empty string fall back to the default. -/
def expectedOf : Option String → String
  | none => CORRECT_ANSWER
  | some s => if s = "" then CORRECT_ANSWER else s

/-- The dev-mode notice returned when the credentials are unconfigured. -/
def devModeFeedback : String :=
  "Backend connected! Configure MathPix keys to enable real math recognition."

/-- The feedback for an empty transcription. -/
def couldNotReadFeedback : String :=
  "Could not read your answer. Try writing more clearly."

/-- The body of the `try` block of the comparator: parse the recognized
string as LaTeX, parse the expected string (caller-supplied or default) with
`sympify`, simplify the difference, and test whether the result is exactly
the zero expression.  Any library exception surfaces as `Except.error`. -/
def compareExprs {Expr : Type} [DecidableEq Expr] (sym : SympyOracle Expr)
    (latex_text : String) (correct_answer : Option String) : Except String Bool :=
  match sym.parse_latex latex_text with
  | Except.error e => Except.error e
  | Except.ok student_expr =>
    match sym.sympify (expectedOf correct_answer) with
    | Except.error e => Except.error e
    | Except.ok correct_expr =>
      match sym.simplify (sym.sub student_expr correct_expr) with
      | Except.error e => Except.error e
      | Except.ok simplified => Except.ok (decide (simplified = sym.zero))

/-- The `POST /submit-answer/` handler, translated line by line from
`backend/main.py`.  `net` is the single outbound HTTP call; `sym` is the
SymPy library. -/
def submit_answer {Expr : Type} [DecidableEq Expr] (sym : SympyOracle Expr)
    (cfg : Config) (req : Submission) (net : MathpixRequest → TransportResult) :
    HandlerOutput :=
  if cfg.app_id = DEFAULT_APP_ID ∨ cfg.app_key = DEFAULT_APP_KEY then
    { result := Except.ok ⟨200, Json.obj [("latex", Json.str ""), ("correct", Json.null),
        ("feedback", Json.str devModeFeedback)]⟩
      netCalls := 0
      comparatorCalls := 0
      outbound := none }
  else
    match net (mathpixData cfg req) with
    | TransportResult.exn e =>
        { result := Except.ok ⟨500, Json.obj
            [("error", Json.str ("Error calling MathPix: " ++ e))]⟩
          netCalls := 1
          comparatorCalls := 0
          outbound := some (mathpixData cfg req) }
    | TransportResult.response status text jsonBody =>
        if status ≠ 200 then
          { result := Except.ok ⟨500, Json.obj
              [("error", Json.str "MathPix API error"), ("details", Json.str text)]⟩
            netCalls := 1
            comparatorCalls := 0
            outbound := some (mathpixData cfg req) }
        else
          match jsonGetTextStrip jsonBody with
          | Except.error e =>
              { result := Except.error e
                netCalls := 1
                comparatorCalls := 0
                outbound := some (mathpixData cfg req) }
          | Except.ok latex_text =>
              if latex_text = "" then
                { result := Except.ok ⟨200, Json.obj [("latex", Json.str ""),
                    ("correct", Json.null), ("feedback", Json.str couldNotReadFeedback)]⟩
                  netCalls := 1
                  comparatorCalls := 0
                  outbound := some (mathpixData cfg req) }
              else
                match compareExprs sym latex_text req.correct_answer with
                | Except.error e =>
                    { result := Except.ok ⟨200, Json.obj [("latex", Json.str latex_text),
                        ("correct", Json.null),
                        ("feedback", Json.str ("Error processing your answer: " ++ e))]⟩
                      netCalls := 1
                      comparatorCalls := 1
                      outbound := some (mathpixData cfg req) }
                | Except.ok is_correct =>
                    { result := Except.ok ⟨200, Json.obj [("latex", Json.str latex_text),
                        ("correct", Json.bool is_correct),
                        ("feedback", Json.str (if is_correct then "Correct! Well done."
                          else "Incorrect. Check your factoring and try again."))]⟩
                      netCalls := 1
                      comparatorCalls := 1
                      outbound := some (mathpixData cfg req) }

/-- The `GET /health` handler. -/
def health : HttpResponse :=
  ⟨200, Json.obj [("status", Json.str "ok")]⟩

/-- A concrete SymPy stand-in used to witness the theorems on explicit
inputs: an expression is an integer, parsing maps a string to its length,
the string "?" fails LaTeX parsing and "!" fails sympify. -/
def testOracle : SympyOracle Int :=
  { parse_latex := fun s => if s = "?" then Except.error "latex parse failure"
      else Except.ok (s.length : Int)
    sympify := fun s => if s = "!" then Except.error "sympify failure"
      else Except.ok (s.length : Int)
    sub := fun a b => a - b
    simplify := fun e => Except.ok e
    zero := 0 }

/-- A configured credential pair, for witnesses. -/
def cfgOK : Config := ⟨"app-id-1", "app-key-1"⟩

/-- Claim C3: if either credential is unset or still its default placeholder,
the handler short-circuits before any network I/O and returns the fixed
dev-mode payload with HTTP 200, regardless of the image and of the
expected-answer value. -/
theorem submitAnswer_unconfigured_shortcircuit {Expr : Type} [DecidableEq Expr]
    (sym : SympyOracle Expr) (cfg : Config) (req : Submission)
    (net : MathpixRequest → TransportResult)
    (h : cfg.app_id = DEFAULT_APP_ID ∨ cfg.app_key = DEFAULT_APP_KEY) :
    submit_answer sym cfg req net =
      { result := Except.ok ⟨200, Json.obj [("latex", Json.str ""), ("correct", Json.null),
          ("feedback", Json.str devModeFeedback)]⟩
        netCalls := 0
        comparatorCalls := 0
        outbound := none } := by
  unfold submit_answer
  rw [if_pos h]

/-- Witness for C3 at a concrete unconfigured request. -/
theorem submitAnswer_unconfigured_shortcircuit_witness :
    submit_answer testOracle ⟨DEFAULT_APP_ID, "some-key"⟩ ⟨[7, 8, 9], some "x**2"⟩
        (fun _ => TransportResult.exn "network down") =
      { result := Except.ok ⟨200, Json.obj [("latex", Json.str ""), ("correct", Json.null),
          ("feedback", Json.str devModeFeedback)]⟩
        netCalls := 0
        comparatorCalls := 0
        outbound := none } :=
  submitAnswer_unconfigured_shortcircuit testOracle ⟨DEFAULT_APP_ID, "some-key"⟩
    ⟨[7, 8, 9], some "x**2"⟩ (fun _ => TransportResult.exn "network down") (Or.inl rfl)

/-- Claim C5: with configured credentials, a transport exception yields
HTTP 500 with «Error calling MathPix: details», and a non-200 recognition
status yields HTTP 500 with «MathPix API error» plus the raw body; in both
cases exactly one recognition attempt is made. -/
theorem submitAnswer_recognition_failures_500 {Expr : Type} [DecidableEq Expr]
    (sym : SympyOracle Expr) (cfg : Config) (req : Submission)
    (net : MathpixRequest → TransportResult)
    (hid : cfg.app_id ≠ DEFAULT_APP_ID) (hkey : cfg.app_key ≠ DEFAULT_APP_KEY) :
    (∀ e, net (mathpixData cfg req) = TransportResult.exn e →
      submit_answer sym cfg req net =
        { result := Except.ok ⟨500, Json.obj
            [("error", Json.str ("Error calling MathPix: " ++ e))]⟩
          netCalls := 1
          comparatorCalls := 0
          outbound := some (mathpixData cfg req) }) ∧
    (∀ status text jb, net (mathpixData cfg req) = TransportResult.response status text jb →
      status ≠ 200 →
      submit_answer sym cfg req net =
        { result := Except.ok ⟨500, Json.obj
            [("error", Json.str "MathPix API error"), ("details", Json.str text)]⟩
          netCalls := 1
          comparatorCalls := 0
          outbound := some (mathpixData cfg req) }) := by
  constructor
  · intro e he
    unfold submit_answer
    rw [if_neg (by simp [hid, hkey]), he]
  · intro status text jb hr hs
    unfold submit_answer
    rw [if_neg (by simp [hid, hkey]), hr]
    exact if_pos hs

/-- Witness for C5 at a concrete transport failure. -/
theorem submitAnswer_recognition_failures_500_witness :
    submit_answer testOracle cfgOK ⟨[0], none⟩ (fun _ => TransportResult.exn "timeout") =
      { result := Except.ok ⟨500, Json.obj
          [("error", Json.str ("Error calling MathPix: " ++ "timeout"))]⟩
        netCalls := 1
        comparatorCalls := 0
        outbound := some (mathpixData cfgOK ⟨[0], none⟩) } :=
  (submitAnswer_recognition_failures_500 testOracle cfgOK ⟨[0], none⟩
      (fun _ => TransportResult.exn "timeout") (by decide) (by decide)).1 "timeout" rfl

/-- Claim C9: supplying the expected-answer field as the empty string behaves
exactly as omitting it: the default expected answer is used and the whole
handler output coincides. -/
theorem submitAnswer_empty_expected_uses_default {Expr : Type} [DecidableEq Expr]
    (sym : SympyOracle Expr) (cfg : Config) (bytes : List Nat)
    (net : MathpixRequest → TransportResult) :
    submit_answer sym cfg ⟨bytes, some ""⟩ net = submit_answer sym cfg ⟨bytes, none⟩ net := by
  have hexp : expectedOf (some "") = expectedOf none := rfl
  unfold submit_answer
  simp only [mathpixData, compareExprs, hexp]

/-- Claim C10: whenever the handler is configured, the outbound request it
builds labels the base64 image with the fixed «data:image/png;base64,»
media-type label regardless of the actual image bytes, and requests only the
«text» result format. -/
theorem submitAnswer_outbound_request_format {Expr : Type} [DecidableEq Expr]
    (sym : SympyOracle Expr) (cfg : Config) (req : Submission)
    (net : MathpixRequest → TransportResult)
    (hid : cfg.app_id ≠ DEFAULT_APP_ID) (hkey : cfg.app_key ≠ DEFAULT_APP_KEY) :
    (submit_answer sym cfg req net).outbound = some (mathpixData cfg req) ∧
    (mathpixData cfg req).src = "data:image/png;base64," ++ b64encode req.fileBytes ∧
    (mathpixData cfg req).formats = ["text"] := by
  refine ⟨?_, rfl, rfl⟩
  unfold submit_answer
  rw [if_neg (by simp [hid, hkey])]
  repeat' split
  all_goals rfl

/-- Witness for C10 at a concrete configured request. -/
theorem submitAnswer_outbound_request_format_witness :
    (submit_answer testOracle cfgOK ⟨[104, 105], none⟩
        (fun _ => TransportResult.exn "down")).outbound =
      some (mathpixData cfgOK ⟨[104, 105], none⟩) ∧
    (mathpixData cfgOK ⟨[104, 105], none⟩).src =
      "data:image/png;base64," ++ b64encode [104, 105] ∧
    (mathpixData cfgOK ⟨[104, 105], none⟩).formats = ["text"] :=
  submitAnswer_outbound_request_format testOracle cfgOK ⟨[104, 105], none⟩
    (fun _ => TransportResult.exn "down") (by decide) (by decide)

/-- Claim C1: when a request reaches the Symbolic Comparator (credentials
configured, recognition succeeded with a 200 status, extracted text non-empty
after stripping) and every SymPy call succeeds, the handler parses the
recognized string as LaTeX, parses the expected string (caller-supplied, or
the default when absent or empty) with `sympify`, and the `correct` field is
true exactly when `simplify(recognized - expected)` is the zero expression. -/
theorem submitAnswer_comparator_correct {Expr : Type} [DecidableEq Expr]
    (sym : SympyOracle Expr) (cfg : Config) (req : Submission)
    (net : MathpixRequest → TransportResult)
    (text : String) (jb : Except String Json) (s : String)
    (student expected simplified : Expr)
    (hid : cfg.app_id ≠ DEFAULT_APP_ID) (hkey : cfg.app_key ≠ DEFAULT_APP_KEY)
    (hnet : net (mathpixData cfg req) = TransportResult.response 200 text jb)
    (hjson : jsonGetTextStrip jb = Except.ok s)
    (hne : s ≠ "")
    (hlatex : sym.parse_latex s = Except.ok student)
    (hexp : sym.sympify (expectedOf req.correct_answer) = Except.ok expected)
    (hsimp : sym.simplify (sym.sub student expected) = Except.ok simplified) :
    (submit_answer sym cfg req net).result =
      Except.ok ⟨200, Json.obj [("latex", Json.str s),
        ("correct", Json.bool (decide (simplified = sym.zero))),
        ("feedback", Json.str (if simplified = sym.zero then "Correct! Well done."
          else "Incorrect. Check your factoring and try again."))]⟩ := by
  have hcomp : compareExprs sym s req.correct_answer =
      Except.ok (decide (simplified = sym.zero)) := by
    unfold compareExprs
    simp only [hlatex, hexp, hsimp]
  by_cases hz : simplified = sym.zero <;>
    simp [submit_answer, hid, hkey, hnet, hjson, hne, hcomp, hz]

/-- Witness for C1: a ten-character recognized string against the default
expected answer, judged correct by the concrete oracle. -/
theorem submitAnswer_comparator_correct_witness :
    (submit_answer testOracle cfgOK ⟨[1], none⟩ (fun _ =>
        TransportResult.response 200 "raw-body"
          (Except.ok (Json.obj [("text", Json.str " abcdefghij ")])))).result =
      Except.ok ⟨200, Json.obj [("latex", Json.str "abcdefghij"),
        ("correct", Json.bool (decide ((0 : Int) = testOracle.zero))),
        ("feedback", Json.str (if (0 : Int) = testOracle.zero then "Correct! Well done."
          else "Incorrect. Check your factoring and try again."))]⟩ :=
  submitAnswer_comparator_correct testOracle cfgOK ⟨[1], none⟩
    (fun _ => TransportResult.response 200 "raw-body"
      (Except.ok (Json.obj [("text", Json.str " abcdefghij ")])))
    "raw-body" (Except.ok (Json.obj [("text", Json.str " abcdefghij ")]))
    "abcdefghij" 10 10 0
    (by decide) (by decide) rfl rfl (by decide) rfl rfl rfl

/-- Claim C2: when a request reaches the comparator and one of the SymPy
calls raises (LaTeX parse, sympify of the expected string, or simplify), the
handler returns HTTP 200 with the recognized text, `correct` null and the
feedback «Error processing your answer: details»; the exception does not
escape the comparator. -/
theorem submitAnswer_comparator_exception_caught {Expr : Type} [DecidableEq Expr]
    (sym : SympyOracle Expr) (cfg : Config) (req : Submission)
    (net : MathpixRequest → TransportResult)
    (text : String) (jb : Except String Json) (s e : String)
    (hid : cfg.app_id ≠ DEFAULT_APP_ID) (hkey : cfg.app_key ≠ DEFAULT_APP_KEY)
    (hnet : net (mathpixData cfg req) = TransportResult.response 200 text jb)
    (hjson : jsonGetTextStrip jb = Except.ok s)
    (hne : s ≠ "")
    (hfail : sym.parse_latex s = Except.error e ∨
      (∃ a, sym.parse_latex s = Except.ok a ∧
        sym.sympify (expectedOf req.correct_answer) = Except.error e) ∨
      (∃ a b, sym.parse_latex s = Except.ok a ∧
        sym.sympify (expectedOf req.correct_answer) = Except.ok b ∧
        sym.simplify (sym.sub a b) = Except.error e)) :
    (submit_answer sym cfg req net).result =
      Except.ok ⟨200, Json.obj [("latex", Json.str s), ("correct", Json.null),
        ("feedback", Json.str ("Error processing your answer: " ++ e))]⟩ := by
  have hcomp : compareExprs sym s req.correct_answer = Except.error e := by
    unfold compareExprs
    rcases hfail with h | ⟨a, h1, h2⟩ | ⟨a, b, h1, h2, h3⟩
    · simp only [h]
    · simp only [h1, h2]
    · simp only [h1, h2, h3]
  simp [submit_answer, hid, hkey, hnet, hjson, hne, hcomp]

/-- Witness for C2: the concrete oracle fails to parse the recognized
string «?», and the handler converts the failure into feedback. -/
theorem submitAnswer_comparator_exception_caught_witness :
    (submit_answer testOracle cfgOK ⟨[1], none⟩ (fun _ =>
        TransportResult.response 200 "raw-body"
          (Except.ok (Json.obj [("text", Json.str "?")])))).result =
      Except.ok ⟨200, Json.obj [("latex", Json.str "?"), ("correct", Json.null),
        ("feedback", Json.str ("Error processing your answer: " ++ "latex parse failure"))]⟩ :=
  submitAnswer_comparator_exception_caught testOracle cfgOK ⟨[1], none⟩
    (fun _ => TransportResult.response 200 "raw-body"
      (Except.ok (Json.obj [("text", Json.str "?")])))
    "raw-body" (Except.ok (Json.obj [("text", Json.str "?")])) "?" "latex parse failure"
    (by decide) (by decide) rfl rfl (by decide) (Or.inl rfl)

/-- Claim C4: when recognition succeeds (status 200) but the transcription is
empty after stripping surrounding whitespace, the handler returns HTTP 200
with empty latex, `correct` null and the could-not-read feedback, for any
expected-answer value, and the comparator is never invoked. -/
theorem submitAnswer_empty_transcription {Expr : Type} [DecidableEq Expr]
    (sym : SympyOracle Expr) (cfg : Config) (req : Submission)
    (net : MathpixRequest → TransportResult)
    (text : String) (kvs : List (String × Json)) (t : String)
    (hid : cfg.app_id ≠ DEFAULT_APP_ID) (hkey : cfg.app_key ≠ DEFAULT_APP_KEY)
    (hnet : net (mathpixData cfg req) =
      TransportResult.response 200 text (Except.ok (Json.obj kvs)))
    (hlook : kvs.lookup "text" = some (Json.str t))
    (htrim : pyStrip t = "") :
    (submit_answer sym cfg req net).result =
      Except.ok ⟨200, Json.obj [("latex", Json.str ""), ("correct", Json.null),
        ("feedback", Json.str couldNotReadFeedback)]⟩ ∧
    (submit_answer sym cfg req net).comparatorCalls = 0 := by
  have hjson : jsonGetTextStrip (Except.ok (Json.obj kvs)) = Except.ok "" := by
    simp [jsonGetTextStrip, hlook, htrim]
  constructor <;> simp [submit_answer, hid, hkey, hnet, hjson]

/-- Witness for C4: a whitespace-only transcription with a caller-supplied
expected answer. -/
theorem submitAnswer_empty_transcription_witness :
    (submit_answer testOracle cfgOK ⟨[3], some "x + 1"⟩ (fun _ =>
        TransportResult.response 200 "raw-body"
          (Except.ok (Json.obj [("text", Json.str "   ")])))).result =
      Except.ok ⟨200, Json.obj [("latex", Json.str ""), ("correct", Json.null),
        ("feedback", Json.str couldNotReadFeedback)]⟩ ∧
    (submit_answer testOracle cfgOK ⟨[3], some "x + 1"⟩ (fun _ =>
        TransportResult.response 200 "raw-body"
          (Except.ok (Json.obj [("text", Json.str "   ")])))).comparatorCalls = 0 :=
  submitAnswer_empty_transcription testOracle cfgOK ⟨[3], some "x + 1"⟩
    (fun _ => TransportResult.response 200 "raw-body"
      (Except.ok (Json.obj [("text", Json.str "   ")])))
    "raw-body" [("text", Json.str "   ")] "   "
    (by decide) (by decide) rfl rfl (by decide)

/-- Claim C6: every response the handler returns is either one of the two
recognition-failure bodies with status 500, or an HTTP 200 body whose
`correct` field is exactly null, true or false. -/
theorem submitAnswer_response_taxonomy {Expr : Type} [DecidableEq Expr]
    (sym : SympyOracle Expr) (cfg : Config) (req : Submission)
    (net : MathpixRequest → TransportResult) (r : HttpResponse)
    (h : (submit_answer sym cfg req net).result = Except.ok r) :
    (∃ e, r = ⟨500, Json.obj [("error", Json.str ("Error calling MathPix: " ++ e))]⟩) ∨
    (∃ d, r = ⟨500, Json.obj [("error", Json.str "MathPix API error"),
      ("details", Json.str d)]⟩) ∨
    (r.status = 200 ∧ (r.body.getField "correct" = some Json.null ∨
      r.body.getField "correct" = some (Json.bool true) ∨
      r.body.getField "correct" = some (Json.bool false))) := by
  unfold submit_answer at h
  by_cases hcred : cfg.app_id = DEFAULT_APP_ID ∨ cfg.app_key = DEFAULT_APP_KEY
  · rw [if_pos hcred] at h
    dsimp only at h
    injection h with h
    subst h
    exact Or.inr (Or.inr ⟨rfl, Or.inl rfl⟩)
  · rw [if_neg hcred] at h
    rcases hnet : net (mathpixData cfg req) with e | ⟨status, text, jb⟩
    · rw [hnet] at h
      dsimp only at h
      injection h with h
      subst h
      exact Or.inl ⟨e, rfl⟩
    · rw [hnet] at h
      dsimp only at h
      by_cases hs : status = 200
      · subst hs
        rw [if_neg (by simp)] at h
        rcases hjs : jsonGetTextStrip jb with e | lt
        · rw [hjs] at h
          dsimp only at h
          exact absurd h (by simp)
        · rw [hjs] at h
          dsimp only at h
          by_cases hlt : lt = ""
          · rw [if_pos hlt] at h
            dsimp only at h
            injection h with h
            subst h
            exact Or.inr (Or.inr ⟨rfl, Or.inl rfl⟩)
          · rw [if_neg hlt] at h
            rcases hcmp : compareExprs sym lt req.correct_answer with e | b
            · rw [hcmp] at h
              dsimp only at h
              injection h with h
              subst h
              exact Or.inr (Or.inr ⟨rfl, Or.inl rfl⟩)
            · rw [hcmp] at h
              dsimp only at h
              injection h with h
              subst h
              refine Or.inr (Or.inr ⟨rfl, ?_⟩)
              cases b
              · exact Or.inr (Or.inr rfl)
              · exact Or.inr (Or.inl rfl)
      · rw [if_pos hs] at h
        dsimp only at h
        injection h with h
        subst h
        exact Or.inr (Or.inl ⟨text, rfl⟩)

/-- Witness for C6 at a concrete unconfigured request, whose response is the
dev-mode payload with `correct` null. -/
theorem submitAnswer_response_taxonomy_witness :
    (∃ e, (⟨200, Json.obj [("latex", Json.str ""), ("correct", Json.null),
        ("feedback", Json.str devModeFeedback)]⟩ : HttpResponse) =
      ⟨500, Json.obj [("error", Json.str ("Error calling MathPix: " ++ e))]⟩) ∨
    (∃ d, (⟨200, Json.obj [("latex", Json.str ""), ("correct", Json.null),
        ("feedback", Json.str devModeFeedback)]⟩ : HttpResponse) =
      ⟨500, Json.obj [("error", Json.str "MathPix API error"), ("details", Json.str d)]⟩) ∨
    ((⟨200, Json.obj [("latex", Json.str ""), ("correct", Json.null),
        ("feedback", Json.str devModeFeedback)]⟩ : HttpResponse).status = 200 ∧
      ((⟨200, Json.obj [("latex", Json.str ""), ("correct", Json.null),
        ("feedback", Json.str devModeFeedback)]⟩ : HttpResponse).body.getField "correct" =
          some Json.null ∨
       (⟨200, Json.obj [("latex", Json.str ""), ("correct", Json.null),
        ("feedback", Json.str devModeFeedback)]⟩ : HttpResponse).body.getField "correct" =
          some (Json.bool true) ∨
       (⟨200, Json.obj [("latex", Json.str ""), ("correct", Json.null),
        ("feedback", Json.str devModeFeedback)]⟩ : HttpResponse).body.getField "correct" =
          some (Json.bool false))) :=
  submitAnswer_response_taxonomy testOracle ⟨DEFAULT_APP_ID, "some-key"⟩ ⟨[2], none⟩
    (fun _ => TransportResult.exn "unused") _ rfl

/-- A recognition response with status 200 whose body is not valid JSON, so
`response.json()` raises. -/
def badJsonNet : MathpixRequest → TransportResult :=
  fun _ => TransportResult.response 200 "<html>bad gateway</html>"
    (Except.error "JSONDecodeError: Expecting value")

/-- Counterexample to C7 as stated: with configured credentials, a 200-status
recognition response whose body is not valid JSON makes
`response.json()` raise outside any try block, and the exception escapes the
handler unhandled. -/
theorem submitAnswer_nonjson_escape :
    (submit_answer testOracle cfgOK ⟨[], none⟩ badJsonNet).result =
      Except.error "JSONDecodeError: Expecting value" := rfl

/-- Claim C7 (amended): an unhandled exception escapes the handler only when
the recognition response has status 200 and extracting the stripped string
`text` field from its JSON body raises (non-JSON body, non-object body, or a
non-string `text` value); every other condition is converted into a
structured JSON response. -/
theorem submitAnswer_escape_only_on_bad_json {Expr : Type} [DecidableEq Expr]
    (sym : SympyOracle Expr) (cfg : Config) (req : Submission)
    (net : MathpixRequest → TransportResult) (e : String)
    (h : (submit_answer sym cfg req net).result = Except.error e) :
    ∃ text jb, net (mathpixData cfg req) = TransportResult.response 200 text jb ∧
      jsonGetTextStrip jb = Except.error e := by
  unfold submit_answer at h
  by_cases hcred : cfg.app_id = DEFAULT_APP_ID ∨ cfg.app_key = DEFAULT_APP_KEY
  · rw [if_pos hcred] at h
    exact absurd h (by simp)
  · rw [if_neg hcred] at h
    rcases hnet : net (mathpixData cfg req) with e0 | ⟨status, text, jb⟩
    · rw [hnet] at h
      exact absurd h (by simp)
    · rw [hnet] at h
      dsimp only at h
      by_cases hs : status = 200
      · subst hs
        rw [if_neg (by simp)] at h
        rcases hjs : jsonGetTextStrip jb with e1 | lt
        · rw [hjs] at h
          dsimp only at h
          injection h with h
          subst h
          exact ⟨text, jb, rfl, hjs⟩
        · rw [hjs] at h
          dsimp only at h
          by_cases hlt : lt = ""
          · rw [if_pos hlt] at h
            exact absurd h (by simp)
          · rw [if_neg hlt] at h
            rcases hcmp : compareExprs sym lt req.correct_answer with e2 | b
            · rw [hcmp] at h
              exact absurd h (by simp)
            · rw [hcmp] at h
              exact absurd h (by simp)
      · rw [if_pos hs] at h
        exact absurd h (by simp)

/-- Witness for the amended C7 at the concrete non-JSON 200 response. -/
theorem submitAnswer_escape_only_on_bad_json_witness :
    ∃ text jb, badJsonNet (mathpixData cfgOK ⟨[], none⟩) =
        TransportResult.response 200 text jb ∧
      jsonGetTextStrip jb = Except.error "JSONDecodeError: Expecting value" :=
  submitAnswer_escape_only_on_bad_json testOracle cfgOK ⟨[], none⟩ badJsonNet
    "JSONDecodeError: Expecting value" rfl

/-- Claim C8: the handler is deterministic: two executions with the same
image bytes, expected-answer value, credentials and recognition behavior
produce identical output. -/
theorem submitAnswer_deterministic {Expr : Type} [DecidableEq Expr]
    (sym : SympyOracle Expr) (cfg₁ cfg₂ : Config) (req₁ req₂ : Submission)
    (net : MathpixRequest → TransportResult)
    (hcfg : cfg₁ = cfg₂) (hbytes : req₁.fileBytes = req₂.fileBytes)
    (hans : req₁.correct_answer = req₂.correct_answer) :
    submit_answer sym cfg₁ req₁ net = submit_answer sym cfg₂ req₂ net := by
  cases hcfg
  have hreq : req₁ = req₂ := by
    cases req₁
    cases req₂
    simp_all
  rw [hreq]

/-- Witness for C8 at a concrete repeated request. -/
theorem submitAnswer_deterministic_witness :
    submit_answer testOracle cfgOK ⟨[5], some "y"⟩ (fun _ => TransportResult.exn "down") =
      submit_answer testOracle cfgOK ⟨[5], some "y"⟩ (fun _ => TransportResult.exn "down") :=
  submitAnswer_deterministic testOracle cfgOK cfgOK ⟨[5], some "y"⟩ ⟨[5], some "y"⟩
    (fun _ => TransportResult.exn "down") rfl rfl rfl
